import Mathlib

/-!
Shallow embedding of the id-registry configuration utility
(src/gui/src/database.cpp and src/gui/src/mainwindow.cpp).

The SQLite `settings` table is modelled as an association list of
(key, value) rows with `key` acting as the primary key.  External
effects that can fail (directory creation, opening the SQLite file,
executing DDL statements) are modelled by a capability record that
fixes, for a given path and environment, which of those operations
succeed.  Form widgets are modelled by a record of their displayed
values.
-/

/-- A `settings` table: rows of (key, value); `key` is the primary key. -/
abbrev SettingsTable := List (String × String)

/-- Value stored under key `k`, if any. -/
def settingsGet (t : SettingsTable) (k : String) : Option String :=
  (t.find? (fun r => r.1 == k)).map (fun r => r.2)

/-- Whether the table holds a row with key `k`. -/
def settingsHasKey (t : SettingsTable) (k : String) : Bool :=
  t.any (fun r => r.1 == k)

/-- Statement `INSERT OR IGNORE INTO settings (key, value) VALUES (k, v)`:
inserts only when the key is absent. -/
def insertOrIgnore (t : SettingsTable) (k v : String) : SettingsTable :=
  if settingsHasKey t k then t else t ++ [(k, v)]

/-- Statement `INSERT OR REPLACE INTO settings (key, value) VALUES (k, v)`:
replaces the row for `k` or inserts it. -/
def insertOrReplace (t : SettingsTable) (k v : String) : SettingsTable :=
  (t.filter (fun r => r.1 != k)) ++ [(k, v)]

/-! ## generateRandomPassword (mainwindow.cpp lines 19-37) -/

/-- The character alphabet of `generateRandomPassword` in
mainwindow.cpp: lowercase, uppercase, digits and the punctuation
characters, exactly as in the source string literal. -/
def passwordChars : String :=
  "abcdefghijklmnopqrstuvwxyz" ++
  "ABCDEFGHIJKLMNOPQRSTUVWXYZ" ++
  "0123456789" ++
  "!@#$%^&*()_+-=[]\x7b\x7d;:,.<>?/~"

/-- The distribution `dis(0, chars.length() - 1)` applied
to one draw of the generator: the raw draw `g` is reduced to an index in
[0, chars.length - 1]. -/
def passwordDis (g : Nat) : Nat :=
  g % passwordChars.length

/-- Default value of the `length` parameter of `generateRandomPassword`. -/
def generateRandomPasswordDefaultLength : Nat := 12

/-- Function `generateRandomPassword(length)`, with the random source made
explicit: `randoms i` is the i-th draw of the mt19937 generator.  The
loop appends `chars[dis(gen)]` for `i = 0 .. length-1`. -/
def generateRandomPassword (randoms : Nat → Nat) (length : Nat) : String :=
  String.mk ((List.range length).map
    (fun i => passwordChars.toList.getD (passwordDis (randoms i)) 'a'))

/-! ## Database state and initializeDatabase (database.cpp lines 11-75) -/

/-- The persistent state behind one database path: the parent
directory, the database file, and the two tables.  `settings = none`
means the `settings` table does not exist; `idsTable = false` means
the `ids` table does not exist. -/
structure DbState where
  dirExists : Bool
  fileExists : Bool
  idsTable : Bool
  settings : Option SettingsTable
  deriving Repr, DecidableEq

/-- Which external operations succeed for this path/environment:
`mkpathOk` - `dir.mkpath(".")` when the directory is missing;
`openOk` - `QSqlDatabase::open` on this file; `createIdsOk` /
`createSettingsOk` - the CREATE TABLE statements when the table must
actually be created; `insert*Ok` - the three INSERT OR IGNORE
statements when they must actually insert.  The `*ErrText` fields are
the driver error texts read back through `lastError().text()`. -/
structure Caps where
  mkpathOk : Bool
  openOk : Bool
  createIdsOk : Bool
  createSettingsOk : Bool
  insertIdLenOk : Bool
  insertCharsetOk : Bool
  insertSecretOk : Bool
  dirPathText : String
  openErrText : String
  createIdsErrText : String
  createSettingsErrText : String
  deriving Repr, DecidableEq

/-- Result of `initializeDatabase`: the returned Bool and the value of
the `errorMessage` out-parameter on return. -/
structure InitResult where
  ok : Bool
  errorMessage : String
  deriving Repr, DecidableEq

/-- Default value inserted for `id_length` (database.cpp line 56). -/
def defaultIdLength : String := "12"

/-- Default value inserted for `charset` (database.cpp lines 57-58). -/
def defaultCharset : String :=
  "abcdefghijklmnopqrstuvwxyzABCDEFGHIJKLMNOPQRSTUVWXYZ0123456789"

/-- Default value inserted for `admin_secret` (database.cpp line 59). -/
def defaultAdminSecret : String := "your-secret-here"

/-- One best-effort `INSERT OR IGNORE` of `initializeDatabase`: when
the key is already present the statement is a successful no-op; when
it must insert, it does so only if the environment lets it succeed
(`opOk`); its result is discarded by the source either way.  If the
`settings` table is absent the statement fails and changes nothing. -/
def execInsertDefault (opOk : Bool) (k v : String) (st : DbState) : DbState :=
  match st.settings with
  | none => st
  | some t =>
      if settingsHasKey t k then st
      else if opOk then { st with settings := some (insertOrIgnore t k v) }
      else st

/-- Function `DbUtil::initializeDatabase(dbPath, errorMessage)`.  The
`errorMessageIn` argument is the caller-supplied out-parameter's value
on entry; the function clears it first (database.cpp line 12).
Returns the (Bool, errorMessage) pair and the state after the call. -/
def initializeDatabase (dbPath : String) (errorMessageIn : String)
    (caps : Caps) (st : DbState) : InitResult × DbState :=
  let _ := errorMessageIn
  if dbPath.isEmpty then
    ({ ok := false, errorMessage := "Database path is empty." }, st)
  else if !st.dirExists && !caps.mkpathOk then
    ({ ok := false,
       errorMessage := "Cannot create directory: " ++ caps.dirPathText }, st)
  else
    let st1 : DbState := { st with dirExists := true }
    if !caps.openOk then
      ({ ok := false,
         errorMessage := "Failed to open database: " ++ caps.openErrText }, st1)
    else
      let st2 : DbState := { st1 with fileExists := true }
      if !st2.idsTable && !caps.createIdsOk then
        ({ ok := false,
           errorMessage := "Failed to create ids table: " ++ caps.createIdsErrText }, st2)
      else
        let st3 : DbState := { st2 with idsTable := true }
        if st3.settings.isNone && !caps.createSettingsOk then
          ({ ok := false,
             errorMessage := "Failed to create settings table: " ++ caps.createSettingsErrText }, st3)
        else
          let st4 : DbState := { st3 with settings := some (st3.settings.getD []) }
          let st5 := execInsertDefault caps.insertIdLenOk "id_length" defaultIdLength st4
          let st6 := execInsertDefault caps.insertCharsetOk "charset" defaultCharset st5
          let st7 := execInsertDefault caps.insertSecretOk "admin_secret" defaultAdminSecret st6
          ({ ok := true, errorMessage := "" }, st7)

/-- Value stored for key `k` in the database state (none when the
`settings` table is absent or has no such row). -/
def dbSettingsGet (st : DbState) (k : String) : Option String :=
  st.settings.bind (fun t => settingsGet t k)

/-! ## ScopedDbConnection (database.cpp lines 79-119)

The process-wide Qt registry of named connections is a list of
(connection name, isOpen flag) entries. -/

/-- The global `QSqlDatabase` connection registry. -/
abbrev ConnRegistry := List (String × Bool)

/-- Predicate `QSqlDatabase::contains(name)`. -/
def registryContains (reg : ConnRegistry) (name : String) : Bool :=
  reg.any (fun r => r.1 == name)

/-- Open flag of the named connection (`database(name).isOpen()`);
false when the name is not registered. -/
def registryIsOpen (reg : ConnRegistry) (name : String) : Bool :=
  (((reg.find? (fun r => r.1 == name)).map (fun r => r.2)).getD false)

/-- The `ScopedDbConnection` constructor: `addDatabase` registers the
name (replacing any stale entry of the same name, as Qt does), then
`open()` succeeds iff the environment allows opening this path
(`openOk`). -/
def scopedConnOpen (reg : ConnRegistry) (name : String) (openOk : Bool) :
    ConnRegistry :=
  (name, openOk) :: reg.filter (fun r => r.1 != name)

/-- Method `ScopedDbConnection::isOpen()`: the name is registered and the
connection reports open. -/
def scopedConnIsOpen (reg : ConnRegistry) (name : String) : Bool :=
  registryContains reg name && registryIsOpen reg name

/-- The `ScopedDbConnection` destructor: when the name is registered,
close the connection if still open, then `removeDatabase(name)`;
otherwise do nothing. -/
def scopedConnDestroy (reg : ConnRegistry) (name : String) : ConnRegistry :=
  if registryContains reg name then
    let reg1 :=
      if registryIsOpen reg name then
        reg.map (fun r => if r.1 == name then (r.1, false) else r)
      else reg
    reg1.filter (fun r => r.1 != name)
  else reg

/-! ## MainWindow form state, loadSettingsFromDb and the save action
(mainwindow.cpp lines 123-153 and 162-203) -/

/-- The displayed values of the three settings widgets:
`spinBoxIdLength` (range 8..32), `lineEditCharset`,
`lineEditAdminSecret`. -/
structure FormFields where
  idLength : Int
  charset : String
  adminSecret : String
  deriving Repr, DecidableEq

/-- Setter `QSpinBox::setValue` on `spinBoxIdLength`, whose range is
`setRange(8, 32)`: the value is clamped into [8, 32]. -/
def spinBoxSetValue (v : Int) : Int :=
  min 32 (max 8 v)

/-- Digits of a decimal literal, most significant first; none when the
list is empty or holds a non-digit. -/
def parseDigits (cs : List Char) : Option Nat :=
  match cs with
  | [] => none
  | _ => cs.foldl
      (fun acc c => acc.bind (fun n =>
        if c.isDigit then some (n * 10 + (c.toNat - '0'.toNat)) else none))
      (some 0)

/-- Conversion `QString::toInt` in base 10: leading and trailing
whitespace is skipped (as Qt's numberToCLocale does), then an optional
sign followed by decimal digits, rejecting values outside the 32-bit
int range (on which Qt sets `ok = false`).  Returns none exactly when
Qt would set `ok = false`. -/
def qstringToInt (s : String) : Option Int :=
  match ((s.toList.dropWhile Char.isWhitespace).reverse.dropWhile
      Char.isWhitespace).reverse with
  | '-' :: rest =>
      (parseDigits rest).bind (fun n =>
        if n ≤ 2147483648 then some (-(n : Int)) else none)
  | '+' :: rest =>
      (parseDigits rest).bind (fun n =>
        if n ≤ 2147483647 then some ((n : Int)) else none)
  | cs =>
      (parseDigits cs).bind (fun n =>
        if n ≤ 2147483647 then some ((n : Int)) else none)

/-- The key set of the SELECT in `loadSettingsFromDb`
(mainwindow.cpp line 130): `WHERE key IN ('id_length', 'charset')`. -/
def selectedSettingsKeys : List String := ["id_length", "charset"]

/-- The rows returned by the SELECT: the settings rows whose key is in
`selectedSettingsKeys`, in table order. -/
def selectSettings (t : SettingsTable) : List (String × String) :=
  t.filter (fun r => selectedSettingsKeys.contains r.1)

/-- The body of the `while (q.next())` loop of `loadSettingsFromDb`
applied to one row: `id_length` is applied through `toInt` and the
[8, 32] guard; `charset` and `admin_secret` verbatim when non-empty
(the `admin_secret` branch is kept although the SELECT never yields
such a row). -/
def applySettingRow (f : FormFields) (row : String × String) : FormFields :=
  let key := row.1
  let value := row.2
  if key == "id_length" then
    match qstringToInt value with
    | some len =>
        if 8 ≤ len ∧ len ≤ 32 then { f with idLength := spinBoxSetValue len }
        else f
    | none => f
  else if key == "charset" then
    if value.isEmpty then f else { f with charset := value }
  else if key == "admin_secret" then
    if value.isEmpty then f else { f with adminSecret := value }
  else f

/-- Which external operations succeed for `loadSettingsFromDb`:
opening the connection and executing the SELECT statement. -/
structure LoadCaps where
  openOk : Bool
  selectOk : Bool
  deriving Repr, DecidableEq

/-- Method `MainWindow::loadSettingsFromDb(dbPath)`: returns false only when
the connection fails to open; otherwise runs the SELECT (which fails
when the environment refuses it or the `settings` table is absent,
in which case no field changes) and folds the row loop over the
returned rows, then returns true. -/
def loadSettingsFromDb (caps : LoadCaps) (st : DbState) (f : FormFields) :
    Bool × FormFields :=
  if !caps.openOk then (false, f)
  else
    match st.settings with
    | some t =>
        if caps.selectOk then (true, (selectSettings t).foldl applySettingRow f)
        else (true, f)
    | none => (true, f)

/-- Method `QString::trimmed`: the string with leading and trailing
whitespace removed. -/
def qtrimmed (s : String) : String :=
  String.mk (((s.toList.dropWhile Char.isWhitespace).reverse.dropWhile
    Char.isWhitespace).reverse)

/-- A database state as produced by the chain of `with`-updates inside
a successful `initializeDatabase` run, before the default inserts. -/
def initializedBase (t : SettingsTable) : DbState :=
  { dirExists := true, fileExists := true, idsTable := true, settings := some t }

/-- The settings-update block of `MainWindow::onSaveClicked`
(mainwindow.cpp lines 184-196): three `INSERT OR REPLACE` upserts
writing the current field values (charset and secret trimmed, the
spin-box value rendered in decimal). -/
def saveSettingsToDb (f : FormFields) (t : SettingsTable) : SettingsTable :=
  insertOrReplace
    (insertOrReplace
      (insertOrReplace t "id_length" (toString f.idLength))
      "charset" (qtrimmed f.charset))
    "admin_secret" (qtrimmed f.adminSecret)

/-! ## Helper lemmas -/

theorem settingsHasKey_eq_isSome (t : SettingsTable) (k : String) :
    settingsHasKey t k = (settingsGet t k).isSome := by
  simp only [settingsHasKey, settingsGet, Option.isSome_map]
  rw [Bool.eq_iff_iff]
  simp [List.find?_isSome]

theorem settingsGet_insertOrIgnore_preserve (t : SettingsTable) (k k' v v' : String)
    (h : settingsGet t k = some v) :
    settingsGet (insertOrIgnore t k' v') k = some v := by
  unfold insertOrIgnore
  split
  · exact h
  · unfold settingsGet at h ⊢
    rw [List.find?_append]
    rcases Option.map_eq_some'.mp h with ⟨r, hr, hv⟩
    simp [hr, hv]

theorem settingsGet_insertOrIgnore_ne (t : SettingsTable) (k k' v' : String)
    (h : k ≠ k') :
    settingsGet (insertOrIgnore t k' v') k = settingsGet t k := by
  unfold insertOrIgnore
  split
  · rfl
  · unfold settingsGet
    rw [List.find?_append]
    have hne : ((k', v').1 == k) = false := by
      simp only [beq_eq_false_iff_ne, ne_eq]
      exact fun hkk => h (hkk ▸ rfl)
    cases hfind : t.find? (fun r => r.1 == k) <;> simp [hfind, hne]

theorem settingsGet_insertOrIgnore_self (t : SettingsTable) (k v : String) :
    settingsGet (insertOrIgnore t k v) k = some ((settingsGet t k).getD v) := by
  unfold insertOrIgnore
  split
  · rename_i hk
    rw [settingsHasKey_eq_isSome] at hk
    rcases Option.isSome_iff_exists.mp hk with ⟨v0, hv0⟩
    simp [hv0]
  · rename_i hk
    rw [settingsHasKey_eq_isSome] at hk
    have hnone : settingsGet t k = none := by
      cases hg : settingsGet t k
      · rfl
      · exact absurd (by simp [hg]) hk
    unfold settingsGet at hnone ⊢
    have hfind : t.find? (fun r => r.1 == k) = none := by
      cases hf : t.find? (fun r => r.1 == k)
      · rfl
      · simp [hf] at hnone
    rw [List.find?_append, hfind]
    simp [hnone]

theorem execInsertDefault_dirExists (op : Bool) (k v : String) (st : DbState) :
    (execInsertDefault op k v st).dirExists = st.dirExists := by
  obtain ⟨d, fl, i, s⟩ := st
  cases s
  · rfl
  · unfold execInsertDefault
    simp only
    split
    · rfl
    · split <;> rfl

theorem execInsertDefault_idsTable (op : Bool) (k v : String) (st : DbState) :
    (execInsertDefault op k v st).idsTable = st.idsTable := by
  obtain ⟨d, fl, i, s⟩ := st
  cases s
  · rfl
  · unfold execInsertDefault
    simp only
    split
    · rfl
    · split <;> rfl

theorem execInsertDefault_settings_isSome (op : Bool) (k v : String) (st : DbState)
    (h : st.settings.isSome = true) :
    (execInsertDefault op k v st).settings.isSome = true := by
  obtain ⟨d, fl, i, s⟩ := st
  cases s
  · exact h
  · unfold execInsertDefault
    simp only
    split
    · exact h
    · split
      · rfl
      · exact h

theorem execInsertDefault_get_preserve (op : Bool) (k k' v v' : String)
    (st : DbState) (h : dbSettingsGet st k = some v) :
    dbSettingsGet (execInsertDefault op k' v' st) k = some v := by
  obtain ⟨d, fl, i, s⟩ := st
  cases s
  · exact h
  · rename_i t
    unfold execInsertDefault
    simp only
    split
    · exact h
    · split
      · have ht : settingsGet t k = some v := h
        exact settingsGet_insertOrIgnore_preserve _ _ _ _ _ ht
      · exact h

theorem initializeDatabase_ok_iff (p m : String) (caps : Caps) (st : DbState) :
    (initializeDatabase p m caps st).1.ok = true ↔
      p.isEmpty = false ∧ (st.dirExists = true ∨ caps.mkpathOk = true) ∧
      caps.openOk = true ∧ (st.idsTable = true ∨ caps.createIdsOk = true) ∧
      (st.settings.isSome = true ∨ caps.createSettingsOk = true) := by
  obtain ⟨d, fl, i, s⟩ := st
  unfold initializeDatabase
  cases hp : p.isEmpty
  · cases d <;> cases hm : caps.mkpathOk <;>
      cases ho : caps.openOk <;> cases i <;>
      cases hci : caps.createIdsOk <;> cases s <;>
      cases hcs : caps.createSettingsOk <;>
      simp [hp, hm, ho, hci, hcs]
  · simp [hp]

theorem initializeDatabase_ok_state (p m : String) (caps : Caps) (st : DbState)
    (h : (initializeDatabase p m caps st).1.ok = true) :
    (initializeDatabase p m caps st).2 =
      execInsertDefault caps.insertSecretOk "admin_secret" defaultAdminSecret
        (execInsertDefault caps.insertCharsetOk "charset" defaultCharset
          (execInsertDefault caps.insertIdLenOk "id_length" defaultIdLength
            (initializedBase (st.settings.getD [])))) := by
  obtain ⟨d, fl, i, s⟩ := st
  unfold initializeDatabase at h ⊢
  cases hp : p.isEmpty <;> rw [hp] at h
  · cases d <;> cases hm : caps.mkpathOk <;> rw [hm] at h <;>
      cases ho : caps.openOk <;> rw [ho] at h <;> cases i <;>
      cases hci : caps.createIdsOk <;> rw [hci] at h <;> cases s <;>
      cases hcs : caps.createSettingsOk <;> rw [hcs] at h <;>
      first
        | (exfalso; revert h; simp; done)
        | rfl
  · simp at h

theorem append_ne_empty_left (a b : String) (h : a.length ≠ 0) : a ++ b ≠ "" := by
  intro he
  have hl := congrArg String.length he
  rw [String.length_append, String.length_empty] at hl
  omega

theorem initializeDatabase_result_cases (p m : String) (caps : Caps) (st : DbState) :
    (initializeDatabase p m caps st).1 = { ok := true, errorMessage := "" } ∨
    ((initializeDatabase p m caps st).1.ok = false ∧
      (initializeDatabase p m caps st).1.errorMessage ∈ [
        "Database path is empty.",
        "Cannot create directory: " ++ caps.dirPathText,
        "Failed to open database: " ++ caps.openErrText,
        "Failed to create ids table: " ++ caps.createIdsErrText,
        "Failed to create settings table: " ++ caps.createSettingsErrText]) := by
  obtain ⟨d, fl, i, s⟩ := st
  unfold initializeDatabase
  cases hp : p.isEmpty
  · cases d <;> cases hm : caps.mkpathOk <;>
      cases ho : caps.openOk <;> cases i <;>
      cases hci : caps.createIdsOk <;> cases s <;>
      cases hcs : caps.createSettingsOk <;> simp
  · simp

theorem registryContains_filter_ne (l : ConnRegistry) (name : String) :
    registryContains (l.filter (fun r => r.1 != name)) name = false := by
  unfold registryContains
  rw [List.any_filter]
  rw [List.any_eq_false]
  intro a ha
  cases h : a.1 == name <;> simp [bne, h]

theorem getD_mem_of_lt (l : List Char) (k : Nat) (d : Char) (h : k < l.length) :
    l.getD k d ∈ l := by
  induction l generalizing k with
  | nil => simp at h
  | cons a tl ih =>
      cases k with
      | zero => simp
      | succ n =>
          have hn : n < tl.length := by simpa using h
          rw [List.getD_cons_succ]
          exact List.mem_cons_of_mem _ (ih n hn)

theorem settingsGet_getD (st : DbState) (k : String) :
    settingsGet (st.settings.getD []) k = dbSettingsGet st k := by
  obtain ⟨d, fl, i, s⟩ := st
  cases s <;> rfl

theorem execInsertDefault_true_some (k v : String) (d fl i : Bool) (t : SettingsTable) :
    execInsertDefault true k v ⟨d, fl, i, some t⟩ = ⟨d, fl, i, some (insertOrIgnore t k v)⟩ := by
  unfold execInsertDefault
  simp only
  split
  · rename_i hk
    unfold insertOrIgnore
    rw [if_pos hk]
  · rfl

theorem loadSettings_singleton_idLength (s : String) (f : FormFields) :
    loadSettingsFromDb ⟨true, true⟩ ⟨true, true, true, some [("id_length", s)]⟩ f =
      (true, applySettingRow f ("id_length", s)) := rfl

theorem applySettingRow_idLength_in_range (f : FormFields) (v : String) (n : Int)
    (hp : qstringToInt v = some n) (h8 : 8 ≤ n) (h32 : n ≤ 32) :
    applySettingRow f ("id_length", v) = { f with idLength := n } := by
  have hs : spinBoxSetValue n = n := by
    unfold spinBoxSetValue
    omega
  have hpos : 8 ≤ n ∧ n ≤ 32 := ⟨h8, h32⟩
  simp [applySettingRow, hp, hpos, hs]

theorem applySettingRow_idLength_ignored (f : FormFields) (v : String)
    (hv : ∀ m, qstringToInt v = some m → m < 8 ∨ 32 < m) :
    applySettingRow f ("id_length", v) = f := by
  cases hp : qstringToInt v
  · simp [applySettingRow, hp]
  · rename_i m
    have hneg : ¬ (8 ≤ m ∧ m ≤ 32) := by
      rcases hv m hp with h | h <;> omega
    simp [applySettingRow, hp, hneg]

theorem qstringToInt_toString_small (n : Int) (h8 : 8 ≤ n) (h32 : n ≤ 32) :
    qstringToInt (toString n) = some n := by
  interval_cases n <;> decide

theorem dbSettingsGet_initializedBase (t : SettingsTable) (k : String) :
    dbSettingsGet (initializedBase t) k = settingsGet t k := rfl

theorem seeded_state_eval (t : SettingsTable) :
    execInsertDefault true "admin_secret" defaultAdminSecret
      (execInsertDefault true "charset" defaultCharset
        (execInsertDefault true "id_length" defaultIdLength (initializedBase t))) =
    initializedBase (insertOrIgnore (insertOrIgnore
      (insertOrIgnore t "id_length" defaultIdLength)
      "charset" defaultCharset) "admin_secret" defaultAdminSecret) := by
  rw [show initializedBase t = (⟨true, true, true, some t⟩ : DbState) from rfl]
  rw [execInsertDefault_true_some, execInsertDefault_true_some,
    execInsertDefault_true_some]
  rfl

/-! ## Claim theorems -/

/-- C1 (code-bug evidence): the save action does write all three
settings rows, and the save-then-reload scenario displays 16,
"ABC123" and "s3cr3t" — but the secret only because the reload leaves
that field untouched.  The SELECT of `loadSettingsFromDb` names only
`id_length` and `charset`, not `admin_secret` as the claim states, so
a stored secret that differs from the currently displayed one is never
loaded back. -/
theorem loadSettings_admin_secret_not_selected :
    settingsGet (saveSettingsToDb ⟨16, "ABC123", "s3cr3t"⟩ []) "admin_secret" =
      some "s3cr3t" ∧
    (loadSettingsFromDb ⟨true, true⟩
        ⟨true, true, true, some (saveSettingsToDb ⟨16, "ABC123", "s3cr3t"⟩ [])⟩
        ⟨16, "ABC123", "s3cr3t"⟩).2 = ⟨16, "ABC123", "s3cr3t"⟩ ∧
    "admin_secret" ∉ selectedSettingsKeys ∧
    (loadSettingsFromDb ⟨true, true⟩
        ⟨true, true, true, some (saveSettingsToDb ⟨16, "ABC123", "s3cr3t"⟩ [])⟩
        ⟨8, "x", "stale"⟩).2 = ⟨16, "ABC123", "stale"⟩ := by decide

/-- C2 counterexample: the alphabet of `generateRandomPassword` does
not have 70 characters (it has 89). -/
theorem passwordChars_length_ne_seventy : ¬ passwordChars.length = 70 := by
  decide

/-- C2 (amended): for every random stream and every length L,
`generateRandomPassword` returns a string of exactly L characters,
each drawn from the fixed alphabet `passwordChars` (lowercase,
uppercase, digits and a fixed set of punctuation symbols); that
alphabet has 89 characters, and the default length is 12. -/
theorem generateRandomPassword_spec (randoms : Nat → Nat) (L : Nat) :
    (generateRandomPassword randoms L).length = L ∧
    (∀ c ∈ (generateRandomPassword randoms L).toList, c ∈ passwordChars.toList) ∧
    passwordChars.length = 89 ∧ generateRandomPasswordDefaultLength = 12 := by
  refine ⟨?_, ?_, by decide, rfl⟩
  · show ((List.range L).map
      (fun i => passwordChars.toList.getD (passwordDis (randoms i)) 'a')).length = L
    rw [List.length_map, List.length_range]
  · intro c hc
    have hc' : c ∈ (List.range L).map
        (fun i => passwordChars.toList.getD (passwordDis (randoms i)) 'a') := hc
    rcases List.mem_map.mp hc' with ⟨i, _, rfl⟩
    apply getD_mem_of_lt
    show passwordDis (randoms i) < passwordChars.toList.length
    unfold passwordDis
    exact Nat.mod_lt _ (by decide)

/-- C2 witness: a concrete generation of length 5, and a concrete
character of it lying in the alphabet. -/
theorem generateRandomPassword_spec_witness :
    (generateRandomPassword (fun i => i) 5).length = 5 ∧
    'a' ∈ passwordChars.toList :=
  ⟨(generateRandomPassword_spec (fun i => i) 5).1,
   (generateRandomPassword_spec (fun i => i) 5).2.1 'a' (by decide)⟩

/-- C3: when a first `initializeDatabase` call on a path succeeds, a
second call on the resulting state also succeeds, and every settings
row present before the second call keeps its value: the default-row
inserts never overwrite existing rows. -/
theorem initializeDatabase_idempotent (p m1 m2 : String) (caps : Caps) (st : DbState)
    (h : (initializeDatabase p m1 caps st).1.ok = true) :
    (initializeDatabase p m2 caps (initializeDatabase p m1 caps st).2).1.ok = true ∧
    ∀ k v, dbSettingsGet (initializeDatabase p m1 caps st).2 k = some v →
      dbSettingsGet (initializeDatabase p m2 caps
        (initializeDatabase p m1 caps st).2).2 k = some v := by
  obtain ⟨hp, hdir, ho, hids, hset⟩ := (initializeDatabase_ok_iff p m1 caps st).mp h
  have hstate := initializeDatabase_ok_state p m1 caps st h
  have hd1 : (initializeDatabase p m1 caps st).2.dirExists = true := by
    rw [hstate, execInsertDefault_dirExists, execInsertDefault_dirExists,
      execInsertDefault_dirExists]
    rfl
  have hi1 : (initializeDatabase p m1 caps st).2.idsTable = true := by
    rw [hstate, execInsertDefault_idsTable, execInsertDefault_idsTable,
      execInsertDefault_idsTable]
    rfl
  have hs1 : (initializeDatabase p m1 caps st).2.settings.isSome = true := by
    rw [hstate]
    apply execInsertDefault_settings_isSome
    apply execInsertDefault_settings_isSome
    apply execInsertDefault_settings_isSome
    rfl
  have hok2 : (initializeDatabase p m2 caps
      (initializeDatabase p m1 caps st).2).1.ok = true :=
    (initializeDatabase_ok_iff p m2 caps _).mpr
      ⟨hp, Or.inl hd1, ho, Or.inl hi1, Or.inl hs1⟩
  refine ⟨hok2, ?_⟩
  intro k v hkv
  rw [initializeDatabase_ok_state p m2 caps _ hok2]
  apply execInsertDefault_get_preserve
  apply execInsertDefault_get_preserve
  apply execInsertDefault_get_preserve
  have hbase : dbSettingsGet (initializedBase
      ((initializeDatabase p m1 caps st).2.settings.getD [])) k
      = settingsGet ((initializeDatabase p m1 caps st).2.settings.getD []) k := rfl
  rw [hbase, settingsGet_getD]
  exact hkv

/-- C3 witness: a fresh path initialized twice with every operation
succeeding; the second call succeeds and keeps the id_length row. -/
theorem initializeDatabase_idempotent_witness :
    (initializeDatabase "a.db" "m2"
        ⟨true, true, true, true, true, true, true, "d", "o", "i", "s"⟩
        (initializeDatabase "a.db" "m1"
          ⟨true, true, true, true, true, true, true, "d", "o", "i", "s"⟩
          ⟨true, false, false, none⟩).2).1.ok = true ∧
    dbSettingsGet (initializeDatabase "a.db" "m2"
        ⟨true, true, true, true, true, true, true, "d", "o", "i", "s"⟩
        (initializeDatabase "a.db" "m1"
          ⟨true, true, true, true, true, true, true, "d", "o", "i", "s"⟩
          ⟨true, false, false, none⟩).2).2 "id_length" = some "12" :=
  ⟨(initializeDatabase_idempotent "a.db" "m1" "m2" _ _ (by decide)).1,
   (initializeDatabase_idempotent "a.db" "m1" "m2" _ _ (by decide)).2
     "id_length" "12" (by decide)⟩

/-- C4 counterexample: a successful initialization after which the
settings table does not contain exactly the three keys with non-empty
values: the id_length insert fails (best-effort, so the call still
succeeds), a pre-existing charset row keeps its empty value, and an
unrelated row survives. -/
theorem initializeDatabase_settings_not_exact :
    (initializeDatabase "a.db" ""
        ⟨true, true, true, true, false, true, true, "", "", "", ""⟩
        ⟨true, false, false, some [("charset", ""), ("foo", "x")]⟩).1.ok = true ∧
    dbSettingsGet (initializeDatabase "a.db" ""
        ⟨true, true, true, true, false, true, true, "", "", "", ""⟩
        ⟨true, false, false, some [("charset", ""), ("foo", "x")]⟩).2 "id_length" =
      none ∧
    dbSettingsGet (initializeDatabase "a.db" ""
        ⟨true, true, true, true, false, true, true, "", "", "", ""⟩
        ⟨true, false, false, some [("charset", ""), ("foo", "x")]⟩).2 "charset" =
      some "" ∧
    dbSettingsGet (initializeDatabase "a.db" ""
        ⟨true, true, true, true, false, true, true, "", "", "", ""⟩
        ⟨true, false, false, some [("charset", ""), ("foo", "x")]⟩).2 "foo" =
      some "x" := by decide

/-- C4 (amended): after a successful `initializeDatabase` call in
which the three default-row inserts succeed, the settings table
contains the keys id_length, charset and admin_secret: a key absent
before the call maps to its documented default ("12", the 62-character
alphanumeric set, "your-secret-here"), a key already present keeps its
prior value, and rows under other keys are untouched. -/
theorem initializeDatabase_seeds_settings (p m : String) (caps : Caps) (st : DbState)
    (hok : (initializeDatabase p m caps st).1.ok = true)
    (h1 : caps.insertIdLenOk = true) (h2 : caps.insertCharsetOk = true)
    (h3 : caps.insertSecretOk = true) :
    dbSettingsGet (initializeDatabase p m caps st).2 "id_length" =
      some ((dbSettingsGet st "id_length").getD defaultIdLength) ∧
    dbSettingsGet (initializeDatabase p m caps st).2 "charset" =
      some ((dbSettingsGet st "charset").getD defaultCharset) ∧
    dbSettingsGet (initializeDatabase p m caps st).2 "admin_secret" =
      some ((dbSettingsGet st "admin_secret").getD defaultAdminSecret) ∧
    ∀ k, k ≠ "id_length" → k ≠ "charset" → k ≠ "admin_secret" →
      dbSettingsGet (initializeDatabase p m caps st).2 k = dbSettingsGet st k := by
  have hstate := initializeDatabase_ok_state p m caps st hok
  rw [h1, h2, h3] at hstate
  have htop : ∀ k : String, dbSettingsGet (initializeDatabase p m caps st).2 k =
      settingsGet (insertOrIgnore (insertOrIgnore (insertOrIgnore
        (st.settings.getD []) "id_length" defaultIdLength)
        "charset" defaultCharset) "admin_secret" defaultAdminSecret) k := by
    intro k
    rw [hstate, seeded_state_eval, dbSettingsGet_initializedBase]
  refine ⟨?_, ?_, ?_, ?_⟩
  · rw [htop, settingsGet_insertOrIgnore_ne _ _ _ _ (by decide),
      settingsGet_insertOrIgnore_ne _ _ _ _ (by decide),
      settingsGet_insertOrIgnore_self, settingsGet_getD]
  · rw [htop, settingsGet_insertOrIgnore_ne _ _ _ _ (by decide),
      settingsGet_insertOrIgnore_self,
      settingsGet_insertOrIgnore_ne _ _ _ _ (by decide), settingsGet_getD]
  · rw [htop, settingsGet_insertOrIgnore_self,
      settingsGet_insertOrIgnore_ne _ _ _ _ (by decide),
      settingsGet_insertOrIgnore_ne _ _ _ _ (by decide), settingsGet_getD]
  · intro k hk1 hk2 hk3
    rw [htop, settingsGet_insertOrIgnore_ne _ _ _ _ hk3,
      settingsGet_insertOrIgnore_ne _ _ _ _ hk2,
      settingsGet_insertOrIgnore_ne _ _ _ _ hk1, settingsGet_getD]

/-- C4 witness: on a fresh state with all operations succeeding, the
id_length row gets its default and an unrelated key stays absent. -/
theorem initializeDatabase_seeds_settings_witness :
    dbSettingsGet (initializeDatabase "a.db" "junk"
        ⟨true, true, true, true, true, true, true, "d", "o", "i", "s"⟩
        ⟨true, false, false, none⟩).2 "id_length" = some "12" ∧
    dbSettingsGet (initializeDatabase "a.db" "junk"
        ⟨true, true, true, true, true, true, true, "d", "o", "i", "s"⟩
        ⟨true, false, false, none⟩).2 "other" = none :=
  ⟨(initializeDatabase_seeds_settings "a.db" "junk" _ _
      (by decide) rfl rfl rfl).1,
   (initializeDatabase_seeds_settings "a.db" "junk" _ _
      (by decide) rfl rfl rfl).2.2.2 "other" (by decide) (by decide) (by decide)⟩

/-- C5: with an empty path, initializeDatabase fails with the
invalid-argument error message and returns with the filesystem and
database state unchanged: no file and no directory is created. -/
theorem initializeDatabase_empty_path (m : String) (caps : Caps) (st : DbState) :
    initializeDatabase "" m caps st =
      ({ ok := false, errorMessage := "Database path is empty." }, st) := rfl

/-- C6: on reload, a stored id_length value that parses to an integer
n in [8, 32] is displayed back as n, while a stored value that is
non-numeric or parses outside [8, 32] leaves the displayed fields
unchanged — the row is ignored, never clamped. -/
theorem loadSettings_idLength_guard (n : Int) (v : String) (f g : FormFields)
    (h8 : 8 ≤ n) (h32 : n ≤ 32)
    (hv : ∀ m, qstringToInt v = some m → m < 8 ∨ 32 < m) :
    (loadSettingsFromDb ⟨true, true⟩
        ⟨true, true, true, some [("id_length", toString n)]⟩ f).2 =
      { f with idLength := n } ∧
    (loadSettingsFromDb ⟨true, true⟩
        ⟨true, true, true, some [("id_length", v)]⟩ g).2 = g := by
  constructor
  · rw [loadSettings_singleton_idLength]
    exact applySettingRow_idLength_in_range f (toString n) n
      (qstringToInt_toString_small n h8 h32) h8 h32
  · rw [loadSettings_singleton_idLength]
    exact applySettingRow_idLength_ignored g v hv

/-- C6 witness: a stored "16" is displayed back as 16; a stored "99"
leaves the previously displayed 8 unchanged. -/
theorem loadSettings_idLength_guard_witness :
    (loadSettingsFromDb ⟨true, true⟩
        ⟨true, true, true, some [("id_length", toString (16 : Int))]⟩
        ⟨8, "x", "y"⟩).2 = ⟨16, "x", "y"⟩ ∧
    (loadSettingsFromDb ⟨true, true⟩
        ⟨true, true, true, some [("id_length", "99")]⟩
        ⟨8, "x", "y"⟩).2 = ⟨8, "x", "y"⟩ :=
  ⟨(loadSettings_idLength_guard 16 "99" ⟨8, "x", "y"⟩ ⟨8, "x", "y"⟩
      (by decide) (by decide)
      (by
        intro m hm
        rw [show qstringToInt "99" = some 99 from by decide] at hm
        injection hm with h
        subst h
        right
        decide)).1,
   (loadSettings_idLength_guard 16 "99" ⟨8, "x", "y"⟩ ⟨8, "x", "y"⟩
      (by decide) (by decide)
      (by
        intro m hm
        rw [show qstringToInt "99" = some 99 from by decide] at hm
        injection hm with h
        subst h
        right
        decide)).2⟩

/-- C7: destroying a ScopedDbConnection closes the connection if
still open and deregisters its name, so two guards with the same
connection name opened sequentially on an openable path both open
successfully, the name being available again after each scope. -/
theorem scopedConnection_sequential_reuse (reg : ConnRegistry) (name : String)
    (openOk : Bool) (h : openOk = true) :
    scopedConnIsOpen (scopedConnOpen reg name openOk) name = true ∧
    registryContains (scopedConnDestroy (scopedConnOpen reg name openOk) name)
      name = false ∧
    scopedConnIsOpen
      (scopedConnOpen
        (scopedConnDestroy (scopedConnOpen reg name openOk) name) name openOk)
      name = true := by
  subst h
  have hopen : ∀ r : ConnRegistry,
      scopedConnIsOpen (scopedConnOpen r name true) name = true := by
    intro r
    simp [scopedConnIsOpen, scopedConnOpen, registryContains, registryIsOpen]
  refine ⟨hopen reg, ?_, hopen _⟩
  unfold scopedConnDestroy
  split
  · exact registryContains_filter_ne _ _
  · rename_i hc
    exfalso
    apply hc
    simp [scopedConnOpen, registryContains]

/-- C7 witness: a concrete registry, name and openable path. -/
theorem scopedConnection_sequential_reuse_witness :
    scopedConnIsOpen (scopedConnOpen [] "c" true) "c" = true ∧
    registryContains (scopedConnDestroy (scopedConnOpen [] "c" true) "c") "c" =
      false ∧
    scopedConnIsOpen
      (scopedConnOpen (scopedConnDestroy (scopedConnOpen [] "c" true) "c")
        "c" true) "c" = true :=
  scopedConnection_sequential_reuse [] "c" true rfl

/-- C8: whenever the directory, the connection and the two CREATE
TABLE statements succeed, initializeDatabase reports success with no
assumption whatsoever on the three best-effort default inserts. -/
theorem initializeDatabase_inserts_best_effort (p m : String) (caps : Caps)
    (st : DbState) (hp : p.isEmpty = false)
    (hdir : st.dirExists = true ∨ caps.mkpathOk = true)
    (ho : caps.openOk = true)
    (hids : st.idsTable = true ∨ caps.createIdsOk = true)
    (hsettings : st.settings.isSome = true ∨ caps.createSettingsOk = true) :
    (initializeDatabase p m caps st).1.ok = true :=
  (initializeDatabase_ok_iff p m caps st).mpr ⟨hp, hdir, ho, hids, hsettings⟩

/-- C8 witness: all three inserts fail, initialization still
succeeds. -/
theorem initializeDatabase_inserts_best_effort_witness :
    (initializeDatabase "a.db" "junk"
        ⟨true, true, true, true, false, false, false, "d", "o", "i", "s"⟩
        ⟨true, false, false, none⟩).1.ok = true :=
  initializeDatabase_inserts_best_effort "a.db" "junk" _ _ (by decide)
    (Or.inl rfl) rfl (Or.inr rfl) (Or.inr rfl)

/-- C9: loadSettingsFromDb returns true exactly when the connection
opens; a failing SELECT (including an absent settings table) still
yields true, so only a connection failure produces false. -/
theorem loadSettingsFromDb_ok_iff_open (caps : LoadCaps) (st : DbState)
    (f : FormFields) :
    (loadSettingsFromDb caps st f).1 = caps.openOk := by
  obtain ⟨o, sel⟩ := caps
  obtain ⟨d, fl, i, s⟩ := st
  cases o
  · rfl
  · cases s
    · rfl
    · cases sel <;> rfl

/-- C10: initializeDatabase clears the caller-supplied error message
on entry (the result does not depend on it), and on return the
message is empty exactly when the call succeeded. -/
theorem initializeDatabase_errorMessage_spec (p m : String) (caps : Caps)
    (st : DbState) :
    initializeDatabase p m caps st = initializeDatabase p "" caps st ∧
    ((initializeDatabase p m caps st).1.ok = true →
      (initializeDatabase p m caps st).1.errorMessage = "") ∧
    ((initializeDatabase p m caps st).1.ok = false →
      (initializeDatabase p m caps st).1.errorMessage ≠ "") := by
  refine ⟨rfl, ?_, ?_⟩
  · intro hok
    rcases initializeDatabase_result_cases p m caps st with hres | ⟨hfalse, _⟩
    · rw [hres]
    · rw [hok] at hfalse
      exact Bool.noConfusion hfalse
  · intro hnot
    rcases initializeDatabase_result_cases p m caps st with hres | ⟨_, hmem⟩
    · rw [hres] at hnot
      exact Bool.noConfusion hnot
    · simp only [List.mem_cons, List.not_mem_nil, or_false] at hmem
      rcases hmem with h | h | h | h | h
      · rw [h]; decide
      · rw [h]; exact append_ne_empty_left _ _ (by decide)
      · rw [h]; exact append_ne_empty_left _ _ (by decide)
      · rw [h]; exact append_ne_empty_left _ _ (by decide)
      · rw [h]; exact append_ne_empty_left _ _ (by decide)

/-- C10 witness: a failing call stores a non-empty message, a
successful call leaves the message cleared. -/
theorem initializeDatabase_errorMessage_spec_witness :
    (initializeDatabase "" "junk"
        ⟨true, true, true, true, true, true, true, "d", "o", "i", "s"⟩
        ⟨true, false, false, none⟩).1.errorMessage ≠ "" ∧
    (initializeDatabase "a.db" "junk"
        ⟨true, true, true, true, true, true, true, "d", "o", "i", "s"⟩
        ⟨true, false, false, none⟩).1.errorMessage = "" :=
  ⟨(initializeDatabase_errorMessage_spec "" "junk" _ _).2.2 (by decide),
   (initializeDatabase_errorMessage_spec "a.db" "junk" _ _).2.1 (by decide)⟩


